import Mathlib

/-!
# AuthUsingJS: the `userAuth` middleware and the `authRouter` route table

A shallow embedding of `server/middleware/userAuth.js` and
`server/routes/authRoutes.js`.

JavaScript values are a small inductive type, requests carry the two
properties the middleware touches (`cookies`, `body`), and the effects of a
call (calls of `jwt.verify`, of `res.json` and of `next`) are recorded in
order in a trace.  `jwt.verify`, the process secret and the continuation
`next` are not code of this repository: they are parameters.  `res.json`
is taken to record its payload and return.
-/

set_option autoImplicit false

namespace AuthUsingJS

/-! ## JavaScript values -/

/-- The JavaScript values the middleware can meet.  Numbers are modelled by
the integers together with `NaN`; only their truthiness is ever used. -/
inductive JSVal where
  | undefined
  | null
  | bool (b : Bool)
  | num (n : Int)
  | nan
  | str (s : String)
  | obj (fields : List (String × JSVal))

/-- A plain object: its own properties, in insertion order. -/
abbrev Obj := List (String × JSVal)

/-- A thrown `Error` instance (`JsonWebTokenError`, `TokenExpiredError`,
`TypeError`, ...): only its `message`, a string, is read by the code. -/
structure JSError where
  message : String

/-- JavaScript truthiness (`ToBoolean`): `undefined`, `null`, `false`, `0`,
`NaN` and the empty string are falsy, everything else is truthy. -/
def truthy : JSVal → Bool
  | .undefined => false
  | .null => false
  | .bool b => b
  | .num n => n != 0
  | .nan => false
  | .str s => s != ""
  | .obj _ => true

/-- Own-property read `o[k]` on a plain object: `undefined` when absent. -/
def getOwn : Obj → String → JSVal
  | [], _ => .undefined
  | (k', v) :: rest, k => if k' = k then v else getOwn rest k

/-- Own-property write `o[k] = v` on a plain object: an existing property
keeps its place, a new one is appended. -/
def setOwn : Obj → String → JSVal → Obj
  | [], k, v => [(k, v)]
  | (k', v') :: rest, k, v =>
    if k' = k then (k, v) :: rest else (k', v') :: setOwn rest k v

/-- Property read `v.k` as the middleware uses it (`tokenDecode.id`): a
`TypeError` on `undefined` and `null`, the own property on an object, and
`undefined` on a primitive (no primitive prototype defines `id`). -/
def getProp (v : JSVal) (k : String) : Except JSError JSVal :=
  match v with
  | .undefined =>
    .error ⟨"Cannot read properties of undefined (reading \x27" ++ k ++ "\x27)"⟩
  | .null =>
    .error ⟨"Cannot read properties of null (reading \x27" ++ k ++ "\x27)"⟩
  | .obj fields => .ok (getOwn fields k)
  | _ => .ok .undefined

/-! ## Requests, effects, outcomes -/

/-- The part of an Express request `userAuth` touches.  `cookies` is `none`
when `req.cookies` is undefined (no cookie parser has run); `body` is `none`
when `req.body` is undefined, and otherwise the object the body parsers
(`express.json`, `express.urlencoded`) produced. -/
structure Request where
  cookies : Option Obj
  body : Option Obj

/-- The observable actions of a handler, in the order they happen. -/
inductive Event where
  /-- A call `jwt.verify(token, secret)`. -/
  | verify (token secret : JSVal)
  /-- A call `res.json(payload)`: a response is written. -/
  | json (payload : JSVal)
  /-- A call `next()`, with the request as it is at that moment. -/
  | next (req : Request)
  /-- A controller of `authController.js` is entered with this request. -/
  | controller (name : String) (req : Request)

/-- How the promise returned by an `async` handler settles. -/
inductive Completion where
  | fulfilled
  | rejected (error : JSError)

/-- What a call of a handler leaves behind. -/
structure Outcome where
  req : Request
  trace : List Event
  completion : Completion

/-- What the middleware gets from outside the repository:
`process.env.JWT_SECRET`, the function `jwt.verify` of `jsonwebtoken`
(returns the decoded payload or throws), and the continuation `next`
(returns, or throws synchronously). -/
structure Env where
  JWT_SECRET : JSVal
  jwtVerify : JSVal → JSVal → Except JSError JSVal
  next : Request → Option JSError

/-- The object literal `{ success: s, message: m }`. -/
def mkResponse (s : Bool) (m : String) : JSVal :=
  .obj [("success", .bool s), ("message", .str m)]

/-- The literal `{ success: false, message: 'not authorized login again' }`. -/
def notAuthorized : JSVal := mkResponse false "not authorized login again"

/-! ## `userAuth` -/

/-- Lines 17-23 of `userAuth.js`: an absent body becomes `{}`, then
`req.body.userId = id`. -/
def attachUserId (req : Request) (id : JSVal) : Request :=
  let req1 : Request :=
    if req.body.isNone then { req with body := some [] } else req
  match req1.body with
  | some b => { req1 with body := some (setOwn b "userId" id) }
  | none => req1

/-- The `try` block of `userAuth` (lines 12-27): the request it leaves, the
events it produced, and whether it ended normally or threw. -/
def tryBlock (env : Env) (req : Request) (token : JSVal) :
    Request × List Event × Except JSError Unit :=
  match env.jwtVerify token env.JWT_SECRET with
  | .error e => (req, [.verify token env.JWT_SECRET], .error e)
  | .ok tokenDecode =>
    match getProp tokenDecode "id" with
    | .error e => (req, [.verify token env.JWT_SECRET], .error e)
    | .ok id =>
      if truthy id then
        let req2 := attachUserId req id
        match env.next req2 with
        | none => (req2, [.verify token env.JWT_SECRET, .next req2], .ok ())
        | some e => (req2, [.verify token env.JWT_SECRET, .next req2], .error e)
      else
        (req, [.verify token env.JWT_SECRET, .json notAuthorized], .ok ())

/-- The middleware `userAuth(req, res, next)` of `userAuth.js`. -/
def userAuth (env : Env) (req : Request) : Outcome :=
  match req.cookies with
  | none =>
    -- `const { token } = req.cookies` throws outside the `try`
    { req := req, trace := [],
      completion := .rejected
        ⟨"Cannot destructure property \x27token\x27 of \x27req.cookies\x27 as it is undefined."⟩ }
  | some cookies =>
    let token := getOwn cookies "token"
    if !truthy token then
      { req := req, trace := [.json notAuthorized], completion := .fulfilled }
    else
      match tryBlock env req token with
      | (req', trace, .ok ()) =>
        { req := req', trace := trace, completion := .fulfilled }
      | (req', trace, .error error) =>
        { req := req', trace := trace ++ [.json (mkResponse false error.message)],
          completion := .fulfilled }

/-! ## Reading a trace -/

/-- The requests with which `next` was called, in order. -/
def nextCalls : List Event → List Request
  | [] => []
  | .next r :: rest => r :: nextCalls rest
  | _ :: rest => nextCalls rest

/-- The payloads written with `res.json`, in order. -/
def responses : List Event → List JSVal
  | [] => []
  | .json p :: rest => p :: responses rest
  | _ :: rest => responses rest

/-- The tokens on which `jwt.verify` was called, in order. -/
def verifyCalls : List Event → List JSVal
  | [] => []
  | .verify t _ :: rest => t :: verifyCalls rest
  | _ :: rest => verifyCalls rest

/-- The request body with an absent body read as the empty object. -/
def bodyOrEmpty (req : Request) : Obj := req.body.getD []

/-- The uniform response shape `{success: boolean, message: string}`. -/
def uniformShape (v : JSVal) : Prop :=
  ∃ (s : Bool) (m : String), v = mkResponse s m

/-- The error the `catch` block of `userAuth` receives, if the `try` block
is reached and throws. -/
def caught (env : Env) (req : Request) : Option JSError :=
  match req.cookies with
  | none => none
  | some cookies =>
    let token := getOwn cookies "token"
    if !truthy token then none
    else
      match (tryBlock env req token).2.2 with
      | .ok _ => none
      | .error error => some error

/-! ## `authRouter` -/

/-- The handlers `authRoutes.js` registers: the middleware `userAuth`, and
the controllers imported from `authController.js`, known by name. -/
inductive Handler where
  | userAuth
  | controller (name : String)
  deriving DecidableEq

/-- One registration `authRouter.post(path, ...handlers)`. -/
structure Route where
  method : String
  path : String
  chain : List Handler
  deriving DecidableEq

/-- The route table of `authRoutes.js`, in registration order. -/
def authRouter : List Route :=
  [ ⟨"POST", "/register", [.controller "register"]⟩,
    ⟨"POST", "/login", [.controller "login"]⟩,
    ⟨"POST", "/logout", [.controller "logout"]⟩,
    ⟨"POST", "/send-verify-otp", [.userAuth, .controller "sendVerifyOtp"]⟩,
    ⟨"POST", "/verify-account", [.userAuth, .controller "verifyEmail"]⟩,
    ⟨"POST", "/is-auth", [.userAuth, .controller "isAuthenticated"]⟩,
    ⟨"POST", "/send-reset-otp", [.controller "sendResestOtp"]⟩,
    ⟨"POST", "/reset-password", [.controller "resetPassword"]⟩ ]

/-- The handler chain registered for a method and path, if any. -/
def chainOf (method path : String) : Option (List Handler) :=
  (authRouter.find? (fun r => r.method = method ∧ r.path = path)).map (·.chain)

/-- The paths whose chain contains `userAuth`. -/
def guardedPaths : List String :=
  (authRouter.filter (fun r => r.chain.contains .userAuth)).map (·.path)

/-- Express runs a chain in order: a handler is entered only when the one
before it calls `next`.  The continuation Express hands to a handler runs
the rest of the chain and does not throw into its caller.  A controller is
recorded with the request it is entered with. -/
def runChain (env : Env) : List Handler → Request → List Event
  | [], _ => []
  | .controller name :: _, req => [.controller name req]
  | .userAuth :: rest, req =>
    let o := userAuth { env with next := fun _ => none } req
    o.trace ++ (nextCalls o.trace).flatMap (runChain env rest)

/-- What a request to `authRouter` with this method and path sets off. -/
def dispatch (env : Env) (method path : String) (req : Request) : List Event :=
  match chainOf method path with
  | some chain => runChain env chain req
  | none => []

/-! ## Concrete inputs -/

/-- A stand-in for `jwt.verify` with the messages `jsonwebtoken` uses: it
accepts three tokens and throws on everything else. -/
def sampleVerify (token _secret : JSVal) : Except JSError JSVal :=
  match token with
  | .str s =>
    if s = "good" then .ok (.obj [("id", .str "u1"), ("iat", .num 1700000000)])
    else if s = "noid" then .ok (.obj [("iat", .num 1700000000)])
    else if s = "zero" then .ok (.obj [("id", .num 0)])
    else if s = "expired" then .error ⟨"jwt expired"⟩
    else .error ⟨"jwt malformed"⟩
  | _ => .error ⟨"jwt must be a string"⟩

/-- An environment whose continuation returns normally. -/
def sampleEnv : Env :=
  { JWT_SECRET := .str "secret", jwtVerify := sampleVerify, next := fun _ => none }

/-- A request with the given token cookie and body. -/
def reqWith (token : String) (body : Option Obj) : Request :=
  { cookies := some [("token", .str token)], body := body }

/-- A request whose cookies were parsed and hold no token. -/
def reqNoToken : Request := { cookies := some [], body := some [("otp", .str "4821")] }

/-- A request on which no cookie parser has run. -/
def reqNoCookies : Request := { cookies := none, body := none }

/-! ## Shared lemmas -/

theorem getOwn_setOwn_same (o : Obj) (k : String) (v : JSVal) :
    getOwn (setOwn o k v) k = v := by
  induction o with
  | nil => simp [setOwn, getOwn]
  | cons p rest ih =>
    obtain ⟨k', v'⟩ := p
    by_cases h : k' = k
    · simp [setOwn, getOwn, h]
    · simp [setOwn, getOwn, h, ih]

theorem getOwn_setOwn_other (o : Obj) (k k2 : String) (v : JSVal) (hk : k2 ≠ k) :
    getOwn (setOwn o k v) k2 = getOwn o k2 := by
  induction o with
  | nil => simp [setOwn, getOwn, Ne.symm hk]
  | cons p rest ih =>
    obtain ⟨k', v'⟩ := p
    by_cases h : k' = k
    · subst h
      simp [setOwn, getOwn, Ne.symm hk]
    · by_cases h2 : k' = k2
      · subst h2
        simp [setOwn, getOwn, hk]
      · simp [setOwn, getOwn, h, h2, ih]

theorem attachUserId_body (req : Request) (id : JSVal) :
    (attachUserId req id).body = some (setOwn (bodyOrEmpty req) "userId" id) := by
  cases hb : req.body <;> simp [attachUserId, bodyOrEmpty, hb]

theorem attachUserId_cookies (req : Request) (id : JSVal) :
    (attachUserId req id).cookies = req.cookies := by
  cases hb : req.body <;> simp [attachUserId, hb]

/-- Whenever `userAuth` calls `next`, the token was truthy, verified, and
its decoded id was truthy; `next` got the request with that id attached. -/
theorem mem_nextCalls_userAuth (env : Env) (req r : Request)
    (h : r ∈ nextCalls (userAuth env req).trace) :
    ∃ cookies tokenDecode id,
      req.cookies = some cookies ∧
      truthy (getOwn cookies "token") = true ∧
      env.jwtVerify (getOwn cookies "token") env.JWT_SECRET = .ok tokenDecode ∧
      getProp tokenDecode "id" = .ok id ∧
      truthy id = true ∧
      r = attachUserId req id := by
  cases hc : req.cookies with
  | none => simp [userAuth, hc, nextCalls] at h
  | some cookies =>
    cases htok : truthy (getOwn cookies "token") with
    | false => simp [userAuth, hc, htok, nextCalls] at h
    | true =>
      cases hv : env.jwtVerify (getOwn cookies "token") env.JWT_SECRET with
      | error e => simp [userAuth, tryBlock, hc, htok, hv, nextCalls] at h
      | ok tokenDecode =>
        cases hid : getProp tokenDecode "id" with
        | error e => simp [userAuth, tryBlock, hc, htok, hv, hid, nextCalls] at h
        | ok id =>
          cases ht : truthy id with
          | false => simp [userAuth, tryBlock, hc, htok, hv, hid, ht, nextCalls] at h
          | true =>
            refine ⟨cookies, tokenDecode, id, rfl, htok, hv, hid, ht, ?_⟩
            cases hn : env.next (attachUserId req id) <;>
              simpa [userAuth, tryBlock, hc, htok, hv, hid, ht, hn, nextCalls] using h

/-- The trace of an admitting call, by whether the continuation throws. -/
theorem userAuth_trace_admit (env : Env) (req : Request) (cookies : Obj)
    (tokenDecode id : JSVal)
    (hc : req.cookies = some cookies)
    (htok : truthy (getOwn cookies "token") = true)
    (hv : env.jwtVerify (getOwn cookies "token") env.JWT_SECRET = .ok tokenDecode)
    (hid : getProp tokenDecode "id" = .ok id)
    (ht : truthy id = true) :
    (userAuth env req).req = attachUserId req id ∧
    (userAuth env req).trace =
      match env.next (attachUserId req id) with
      | none =>
        [.verify (getOwn cookies "token") env.JWT_SECRET, .next (attachUserId req id)]
      | some e =>
        [.verify (getOwn cookies "token") env.JWT_SECRET, .next (attachUserId req id),
          .json (mkResponse false e.message)] := by
  cases hn : env.next (attachUserId req id) <;>
    simp [userAuth, tryBlock, hc, htok, hv, hid, ht, hn]

/-- The middleware itself never enters a controller. -/
theorem controller_not_mem_userAuth (env : Env) (req r : Request) (name : String) :
    Event.controller name r ∉ (userAuth env req).trace := by
  cases hc : req.cookies with
  | none => simp [userAuth, hc]
  | some cookies =>
    cases htok : truthy (getOwn cookies "token") with
    | false => simp [userAuth, hc, htok]
    | true =>
      cases hv : env.jwtVerify (getOwn cookies "token") env.JWT_SECRET with
      | error e => simp [userAuth, tryBlock, hc, htok, hv]
      | ok tokenDecode =>
        cases hid : getProp tokenDecode "id" with
        | error e => simp [userAuth, tryBlock, hc, htok, hv, hid]
        | ok id =>
          cases ht : truthy id with
          | false => simp [userAuth, tryBlock, hc, htok, hv, hid, ht]
          | true =>
            cases hn : env.next (attachUserId req id) <;>
              simp [userAuth, tryBlock, hc, htok, hv, hid, ht, hn]

/-- In a chain `userAuth, controller`, the controller is entered only with
a request `userAuth` passed to `next`. -/
theorem controller_mem_guarded_chain (env : Env) (req r : Request) (name c : String)
    (h : Event.controller name r ∈ runChain env [.userAuth, .controller c] req) :
    r ∈ nextCalls (userAuth { env with next := fun _ => none } req).trace := by
  simp only [runChain, List.mem_append, List.mem_flatMap, List.mem_singleton] at h
  rcases h with h | ⟨a, ha, hr⟩
  · exact absurd h (controller_not_mem_userAuth _ _ _ _)
  · cases hr
    exact ha

theorem nextCalls_append (a b : List Event) :
    nextCalls (a ++ b) = nextCalls a ++ nextCalls b := by
  induction a with
  | nil => rfl
  | cons e rest ih => cases e <;> simp [nextCalls, ih]

theorem responses_append (a b : List Event) :
    responses (a ++ b) = responses a ++ responses b := by
  induction a with
  | nil => rfl
  | cons e rest ih => cases e <;> simp [responses, ih]

/-- Entering a controller is neither a call of `next` nor a response of the
middleware. -/
theorem controllers_silent (c : String) (l : List Request) :
    nextCalls (l.flatMap (fun x => [Event.controller c x])) = [] ∧
    responses (l.flatMap (fun x => [Event.controller c x])) = [] := by
  induction l with
  | nil => exact ⟨rfl, rfl⟩
  | cons r rest ih =>
    rw [List.flatMap_cons, nextCalls_append, responses_append, ih.1, ih.2]
    exact ⟨rfl, rfl⟩

/-- A guarded path runs `userAuth` and then its controller. -/
theorem dispatch_guarded (env : Env) (req : Request) (path : String)
    (hp : path ∈ guardedPaths) :
    ∃ c, dispatch env "POST" path req
      = runChain env [.userAuth, .controller c] req := by
  have hg : guardedPaths = ["/send-verify-otp", "/verify-account", "/is-auth"] := by
    decide
  rw [hg] at hp
  simp only [List.mem_cons, List.mem_singleton, List.not_mem_nil, or_false] at hp
  rcases hp with rfl | rfl | rfl
  · exact ⟨"sendVerifyOtp", by
      have h : chainOf "POST" "/send-verify-otp"
          = some [.userAuth, .controller "sendVerifyOtp"] := by decide
      simp only [dispatch, h]⟩
  · exact ⟨"verifyEmail", by
      have h : chainOf "POST" "/verify-account"
          = some [.userAuth, .controller "verifyEmail"] := by decide
      simp only [dispatch, h]⟩
  · exact ⟨"isAuthenticated", by
      have h : chainOf "POST" "/is-auth"
          = some [.userAuth, .controller "isAuthenticated"] := by decide
      simp only [dispatch, h]⟩

/-! ## The claims -/

/-- C1: a request whose cookie carries a (truthy) token on which
`jwt.verify` returns a payload whose `id` is truthy is admitted: `next` is
called exactly once, with the request whose body has `userId` set to the
decoded id, and that request is what `userAuth` leaves behind. -/
theorem userAuth_admits (env : Env) (req : Request) (cookies : Obj)
    (tokenDecode id : JSVal)
    (hc : req.cookies = some cookies)
    (htok : truthy (getOwn cookies "token") = true)
    (hv : env.jwtVerify (getOwn cookies "token") env.JWT_SECRET = .ok tokenDecode)
    (hid : getProp tokenDecode "id" = .ok id)
    (ht : truthy id = true) :
    nextCalls (userAuth env req).trace = [attachUserId req id] ∧
    (userAuth env req).req = attachUserId req id ∧
    (∃ b, (attachUserId req id).body = some b ∧ getOwn b "userId" = id) := by
  refine ⟨?_, ?_, ?_⟩
  · cases hn : env.next (attachUserId req id) <;>
      simp [userAuth, tryBlock, hc, htok, hv, hid, ht, hn, nextCalls]
  · cases hn : env.next (attachUserId req id) <;>
      simp [userAuth, tryBlock, hc, htok, hv, hid, ht, hn]
  · exact ⟨_, attachUserId_body req id, getOwn_setOwn_same _ _ _⟩

/-- Witness of C1: the token `good` decodes to id `u1`; the body had no
`userId`. -/
theorem userAuth_admits_witness :
    (reqWith "good" none).cookies = some [("token", .str "good")] ∧
    truthy (getOwn [("token", .str "good")] "token") = true ∧
    sampleEnv.jwtVerify (getOwn [("token", .str "good")] "token") sampleEnv.JWT_SECRET
      = .ok (.obj [("id", .str "u1"), ("iat", .num 1700000000)]) ∧
    getProp (.obj [("id", .str "u1"), ("iat", .num 1700000000)]) "id"
      = .ok (.str "u1") ∧
    truthy (.str "u1") = true ∧
    nextCalls (userAuth sampleEnv (reqWith "good" none)).trace
      = [attachUserId (reqWith "good" none) (.str "u1")] ∧
    (userAuth sampleEnv (reqWith "good" none)).req
      = attachUserId (reqWith "good" none) (.str "u1") ∧
    (∃ b, (attachUserId (reqWith "good" none) (.str "u1")).body = some b ∧
      getOwn b "userId" = .str "u1") :=
  ⟨rfl, rfl, rfl, rfl, rfl,
    userAuth_admits sampleEnv (reqWith "good" none) [("token", .str "good")]
      (.obj [("id", .str "u1"), ("iat", .num 1700000000)]) (.str "u1")
      rfl rfl rfl rfl rfl⟩

/-- C2: when the parsed cookies hold no token (the `token` cookie is
missing, empty, or any other falsy value), `userAuth` writes exactly the
response `{success: false, message: 'not authorized login again'}`, calls
neither `jwt.verify` nor `next`, and leaves the request as it was. -/
theorem userAuth_no_token (env : Env) (req : Request) (cookies : Obj)
    (hc : req.cookies = some cookies)
    (htok : truthy (getOwn cookies "token") = false) :
    responses (userAuth env req).trace = [notAuthorized] ∧
    verifyCalls (userAuth env req).trace = [] ∧
    nextCalls (userAuth env req).trace = [] ∧
    (userAuth env req).req = req := by
  simp [userAuth, hc, htok, responses, verifyCalls, nextCalls]

/-- Witness of C2: the cookies are parsed and empty. -/
theorem userAuth_no_token_witness :
    reqNoToken.cookies = some [] ∧
    truthy (getOwn [] "token") = false ∧
    responses (userAuth sampleEnv reqNoToken).trace = [notAuthorized] ∧
    verifyCalls (userAuth sampleEnv reqNoToken).trace = [] ∧
    nextCalls (userAuth sampleEnv reqNoToken).trace = [] ∧
    (userAuth sampleEnv reqNoToken).req = reqNoToken :=
  ⟨rfl, rfl, userAuth_no_token sampleEnv reqNoToken [] rfl rfl⟩

/-- C3: when the request carries a token and `jwt.verify` throws on it,
whatever the error, `userAuth` does not call `next`, leaves the request as
it was, and writes exactly one response, `{success: false, message: m}`
with `m` the message of the error thrown. -/
theorem userAuth_verify_throws (env : Env) (req : Request) (cookies : Obj)
    (error : JSError)
    (hc : req.cookies = some cookies)
    (htok : truthy (getOwn cookies "token") = true)
    (hv : env.jwtVerify (getOwn cookies "token") env.JWT_SECRET = .error error) :
    nextCalls (userAuth env req).trace = [] ∧
    (userAuth env req).req = req ∧
    responses (userAuth env req).trace = [mkResponse false error.message] := by
  simp [userAuth, tryBlock, hc, htok, hv, responses, nextCalls]

/-- Witness of C3: the token `expired` makes verification throw
`jwt expired`. -/
theorem userAuth_verify_throws_witness :
    (reqWith "expired" none).cookies = some [("token", .str "expired")] ∧
    truthy (getOwn [("token", .str "expired")] "token") = true ∧
    sampleEnv.jwtVerify (getOwn [("token", .str "expired")] "token")
      sampleEnv.JWT_SECRET = .error ⟨"jwt expired"⟩ ∧
    nextCalls (userAuth sampleEnv (reqWith "expired" none)).trace = [] ∧
    (userAuth sampleEnv (reqWith "expired" none)).req = reqWith "expired" none ∧
    responses (userAuth sampleEnv (reqWith "expired" none)).trace
      = [mkResponse false "jwt expired"] :=
  ⟨rfl, rfl, rfl,
    userAuth_verify_throws sampleEnv (reqWith "expired" none)
      [("token", .str "expired")] ⟨"jwt expired"⟩ rfl rfl rfl⟩

/-- C4: when the token verifies but reading `id` on the decoded payload
gives a falsy value (`undefined` because the property is absent, `0`, the
empty string, ...), `userAuth` writes exactly the response
`{success: false, message: 'not authorized login again'}`, does not call
`next`, and leaves the request, its body included, as it was. -/
theorem userAuth_missing_id (env : Env) (req : Request) (cookies : Obj)
    (tokenDecode id : JSVal)
    (hc : req.cookies = some cookies)
    (htok : truthy (getOwn cookies "token") = true)
    (hv : env.jwtVerify (getOwn cookies "token") env.JWT_SECRET = .ok tokenDecode)
    (hid : getProp tokenDecode "id" = .ok id)
    (ht : truthy id = false) :
    responses (userAuth env req).trace = [notAuthorized] ∧
    nextCalls (userAuth env req).trace = [] ∧
    (userAuth env req).req = req := by
  simp [userAuth, tryBlock, hc, htok, hv, hid, ht, responses, nextCalls]

/-- Witness of C4: the token `zero` decodes to a payload whose id is `0`. -/
theorem userAuth_missing_id_witness :
    (reqWith "zero" (some [("otp", .str "1")])).cookies
      = some [("token", .str "zero")] ∧
    truthy (getOwn [("token", .str "zero")] "token") = true ∧
    sampleEnv.jwtVerify (getOwn [("token", .str "zero")] "token")
      sampleEnv.JWT_SECRET = .ok (.obj [("id", .num 0)]) ∧
    getProp (.obj [("id", .num 0)]) "id" = .ok (.num 0) ∧
    truthy (.num 0) = false ∧
    responses (userAuth sampleEnv (reqWith "zero" (some [("otp", .str "1")]))).trace
      = [notAuthorized] ∧
    nextCalls (userAuth sampleEnv (reqWith "zero" (some [("otp", .str "1")]))).trace
      = [] ∧
    (userAuth sampleEnv (reqWith "zero" (some [("otp", .str "1")]))).req
      = reqWith "zero" (some [("otp", .str "1")]) :=
  ⟨rfl, rfl, rfl, rfl, rfl,
    userAuth_missing_id sampleEnv (reqWith "zero" (some [("otp", .str "1")]))
      [("token", .str "zero")] (.obj [("id", .num 0)]) (.num 0) rfl rfl rfl rfl rfl⟩

/-- C5, as stated, fails: a request without token and a request whose token
makes `jwt.verify` throw `jwt expired` are both rejected (no call of `next`),
with the same success flag but different messages. -/
theorem userAuth_rejections_differ :
    nextCalls (userAuth sampleEnv reqNoToken).trace = [] ∧
    nextCalls (userAuth sampleEnv (reqWith "expired" none)).trace = [] ∧
    responses (userAuth sampleEnv reqNoToken).trace
      = [mkResponse false "not authorized login again"] ∧
    responses (userAuth sampleEnv (reqWith "expired" none)).trace
      = [mkResponse false "jwt expired"] ∧
    responses (userAuth sampleEnv reqNoToken).trace
      ≠ responses (userAuth sampleEnv (reqWith "expired" none)).trace := by
  refine ⟨rfl, rfl, rfl, rfl, ?_⟩
  have h1 : responses (userAuth sampleEnv reqNoToken).trace
      = [mkResponse false "not authorized login again"] := rfl
  have h2 : responses (userAuth sampleEnv (reqWith "expired" none)).trace
      = [mkResponse false "jwt expired"] := rfl
  rw [h1, h2]
  simp [mkResponse]

/-- C5, amended: any two responses `userAuth` writes carry the same success
flag, `false`; and they are identical, both
`{success: false, message: 'not authorized login again'}`, when neither call
had an error caught by the `catch` block (missing token, missing id).  When
an error is caught the message is that error's own message. -/
theorem userAuth_rejections_share_flag (env1 env2 : Env) (req1 req2 : Request)
    (p1 p2 : JSVal)
    (h1 : p1 ∈ responses (userAuth env1 req1).trace)
    (h2 : p2 ∈ responses (userAuth env2 req2).trace) :
    (∃ m1 m2, p1 = mkResponse false m1 ∧ p2 = mkResponse false m2) ∧
    (caught env1 req1 = none → caught env2 req2 = none →
      p1 = notAuthorized ∧ p2 = notAuthorized) ∧
    (∀ e, caught env1 req1 = some e → p1 = mkResponse false e.message) ∧
    (∀ e, caught env2 req2 = some e → p2 = mkResponse false e.message) := by
  have key : ∀ (env : Env) (req : Request) (p : JSVal),
      p ∈ responses (userAuth env req).trace →
      (caught env req = none ∧ p = notAuthorized) ∨
      (∃ e, caught env req = some e ∧ p = mkResponse false e.message) := by
    intro env req p h
    cases hc : req.cookies with
    | none => simp [userAuth, hc, responses] at h
    | some cookies =>
      cases htok : truthy (getOwn cookies "token") with
      | false =>
        left
        simpa [userAuth, caught, hc, htok, responses] using h
      | true =>
        cases hv : env.jwtVerify (getOwn cookies "token") env.JWT_SECRET with
        | error e =>
          right
          refine ⟨e, ?_, ?_⟩
          · simp [caught, tryBlock, hc, htok, hv]
          · simpa [userAuth, tryBlock, hc, htok, hv, responses] using h
        | ok tokenDecode =>
          cases hid : getProp tokenDecode "id" with
          | error e =>
            right
            refine ⟨e, ?_, ?_⟩
            · simp [caught, tryBlock, hc, htok, hv, hid]
            · simpa [userAuth, tryBlock, hc, htok, hv, hid, responses] using h
          | ok id =>
            cases ht : truthy id with
            | false =>
              left
              refine ⟨?_, ?_⟩
              · simp [caught, tryBlock, hc, htok, hv, hid, ht]
              · simpa [userAuth, tryBlock, hc, htok, hv, hid, ht, responses] using h
            | true =>
              cases hn : env.next (attachUserId req id) with
              | none =>
                simp [userAuth, tryBlock, hc, htok, hv, hid, ht, hn, responses] at h
              | some e =>
                right
                refine ⟨e, ?_, ?_⟩
                · simp [caught, tryBlock, hc, htok, hv, hid, ht, hn]
                · simpa [userAuth, tryBlock, hc, htok, hv, hid, ht, hn, responses]
                    using h
  have k1 := key env1 req1 p1 h1
  have k2 := key env2 req2 p2 h2
  refine ⟨?_, ?_, ?_, ?_⟩
  · rcases k1 with ⟨_, rfl⟩ | ⟨e1, _, rfl⟩ <;> rcases k2 with ⟨_, rfl⟩ | ⟨e2, _, rfl⟩ <;>
      exact ⟨_, _, rfl, rfl⟩
  · intro c1 c2
    rcases k1 with ⟨_, rfl⟩ | ⟨e1, he1, _⟩
    · rcases k2 with ⟨_, rfl⟩ | ⟨e2, he2, _⟩
      · exact ⟨rfl, rfl⟩
      · rw [c2] at he2; cases he2
    · rw [c1] at he1; cases he1
  · intro e he
    rcases k1 with ⟨hn, _⟩ | ⟨e1, he1, rfl⟩
    · rw [hn] at he; cases he
    · rw [he1] at he; cases he; rfl
  · intro e he
    rcases k2 with ⟨hn, _⟩ | ⟨e2, he2, rfl⟩
    · rw [hn] at he; cases he
    · rw [he2] at he; cases he; rfl

/-- Witness of C5 amended: the two rejections of the counterexample. -/
theorem userAuth_rejections_share_flag_witness :
    mkResponse false "not authorized login again"
      ∈ responses (userAuth sampleEnv reqNoToken).trace ∧
    mkResponse false "jwt expired"
      ∈ responses (userAuth sampleEnv (reqWith "expired" none)).trace ∧
    (∃ m1 m2, mkResponse false "not authorized login again" = mkResponse false m1 ∧
      mkResponse false "jwt expired" = mkResponse false m2) :=
  ⟨List.mem_singleton.mpr rfl, List.mem_singleton.mpr rfl,
    (userAuth_rejections_share_flag sampleEnv sampleEnv reqNoToken
      (reqWith "expired" none) _ _
      (List.mem_singleton.mpr rfl) (List.mem_singleton.mpr rfl)).1⟩

/-- C6: when `userAuth`, run by `authRouter` on one of its guarded paths,
admits a request (calls `next`), no response is written, the request it
leaves is the one it passed on, with the cookies it came with, and its body
is the body before the call (the empty object when there was none) with
`userId` set; every other body field reads as before. -/
theorem userAuth_admit_frame (env : Env) (req r : Request) (path : String)
    (hp : path ∈ guardedPaths)
    (hcalled : r ∈ nextCalls (dispatch env "POST" path req)) :
    responses (dispatch env "POST" path req) = [] ∧
    (userAuth { env with next := fun _ => none } req).req = r ∧
    r.cookies = req.cookies ∧
    (∃ id, r.body = some (setOwn (bodyOrEmpty req) "userId" id)) ∧
    (∀ k, k ≠ "userId" → getOwn (bodyOrEmpty r) k = getOwn (bodyOrEmpty req) k) := by
  obtain ⟨c, hd⟩ := dispatch_guarded env req path hp
  rw [hd] at hcalled ⊢
  have hsil := controllers_silent c
    (nextCalls (userAuth { env with next := fun _ => none } req).trace)
  have hn : nextCalls (runChain env [.userAuth, .controller c] req)
      = nextCalls (userAuth { env with next := fun _ => none } req).trace := by
    simp only [runChain, nextCalls_append, hsil.1, List.append_nil]
  have hr : responses (runChain env [.userAuth, .controller c] req)
      = responses (userAuth { env with next := fun _ => none } req).trace := by
    simp only [runChain, responses_append, hsil.2, List.append_nil]
  rw [hn] at hcalled
  rw [hr]
  obtain ⟨cookies, tokenDecode, id, hc, htok, hv, hid, ht, rfl⟩ :=
    mem_nextCalls_userAuth _ req r hcalled
  obtain ⟨hreq, htrace⟩ :=
    userAuth_trace_admit _ req cookies tokenDecode id hc htok hv hid ht
  refine ⟨?_, hreq, attachUserId_cookies req id, ⟨id, attachUserId_body req id⟩, ?_⟩
  · rw [htrace]
    simp [responses]
  · intro k hk
    have hb : bodyOrEmpty (attachUserId req id) = setOwn (bodyOrEmpty req) "userId" id := by
      simp [bodyOrEmpty, attachUserId_body]
    rw [hb]
    exact getOwn_setOwn_other _ _ _ _ hk

/-- Witness of C6: POST `/verify-account` with the token `good` and a body
that holds an `otp` field. -/
theorem userAuth_admit_frame_witness :
    "/verify-account" ∈ guardedPaths ∧
    attachUserId (reqWith "good" (some [("otp", .str "4821")])) (.str "u1")
      ∈ nextCalls (dispatch sampleEnv "POST" "/verify-account"
          (reqWith "good" (some [("otp", .str "4821")]))) ∧
    responses (dispatch sampleEnv "POST" "/verify-account"
      (reqWith "good" (some [("otp", .str "4821")]))) = [] ∧
    (attachUserId (reqWith "good" (some [("otp", .str "4821")])) (.str "u1")).body
      = some [("otp", .str "4821"), ("userId", .str "u1")] :=
  ⟨by decide, List.mem_singleton.mpr rfl,
    (userAuth_admit_frame sampleEnv (reqWith "good" (some [("otp", .str "4821")]))
      (attachUserId (reqWith "good" (some [("otp", .str "4821")])) (.str "u1"))
      "/verify-account" (by decide) (List.mem_singleton.mpr rfl)).1, rfl⟩

/-- C8, as stated, fails: on a request without a cookies object the
destructuring `const { token } = req.cookies` throws before the `try`, so
the promise `userAuth` returns is rejected, `next` is not called and no
response is written. -/
theorem userAuth_rejects_without_cookies :
    (userAuth sampleEnv reqNoCookies).completion = .rejected
      ⟨"Cannot destructure property \x27token\x27 of \x27req.cookies\x27 as it is undefined."⟩ ∧
    nextCalls (userAuth sampleEnv reqNoCookies).trace = [] ∧
    responses (userAuth sampleEnv reqNoCookies).trace = [] ∧
    ¬ ((userAuth sampleEnv reqNoCookies).completion = .fulfilled ∧
        (nextCalls (userAuth sampleEnv reqNoCookies).trace ≠ [] ∨
          ∃ p, p ∈ responses (userAuth sampleEnv reqNoCookies).trace ∧ uniformShape p)) := by
  refine ⟨rfl, rfl, rfl, ?_⟩
  rintro ⟨h, _⟩
  have hc : (userAuth sampleEnv reqNoCookies).completion = .rejected
      ⟨"Cannot destructure property \x27token\x27 of \x27req.cookies\x27 as it is undefined."⟩ :=
    rfl
  rw [hc] at h
  cases h

/-- C8, amended: on every request that has a cookies object, whatever
`jwt.verify` and the continuation do (return or throw), the promise
`userAuth` returns is fulfilled, every response it writes has the shape
`{success: boolean, message: string}`, and it calls `next` or writes a
response. -/
theorem userAuth_no_escape (env : Env) (req : Request) (cookies : Obj)
    (hc : req.cookies = some cookies) :
    (userAuth env req).completion = .fulfilled ∧
    (∀ p, p ∈ responses (userAuth env req).trace → uniformShape p) ∧
    (nextCalls (userAuth env req).trace ≠ [] ∨
      responses (userAuth env req).trace ≠ []) := by
  cases htok : truthy (getOwn cookies "token") with
  | false =>
    simp [userAuth, hc, htok, responses, nextCalls, uniformShape, notAuthorized]
  | true =>
    cases hv : env.jwtVerify (getOwn cookies "token") env.JWT_SECRET with
    | error e =>
      simp [userAuth, tryBlock, hc, htok, hv, responses, nextCalls, uniformShape]
    | ok tokenDecode =>
      cases hid : getProp tokenDecode "id" with
      | error e =>
        simp [userAuth, tryBlock, hc, htok, hv, hid, responses, nextCalls, uniformShape]
      | ok id =>
        cases ht : truthy id with
        | false =>
          simp [userAuth, tryBlock, hc, htok, hv, hid, ht, responses, nextCalls,
            uniformShape, notAuthorized]
        | true =>
          cases hn : env.next (attachUserId req id) <;>
            simp [userAuth, tryBlock, hc, htok, hv, hid, ht, hn, responses, nextCalls,
              uniformShape]

/-- Witness of C8 amended: a token on which verification throws. -/
theorem userAuth_no_escape_witness :
    (reqWith "garbage" none).cookies = some [("token", .str "garbage")] ∧
    (userAuth sampleEnv (reqWith "garbage" none)).completion = .fulfilled ∧
    (∀ p, p ∈ responses (userAuth sampleEnv (reqWith "garbage" none)).trace →
      uniformShape p) ∧
    (nextCalls (userAuth sampleEnv (reqWith "garbage" none)).trace ≠ [] ∨
      responses (userAuth sampleEnv (reqWith "garbage" none)).trace ≠ []) :=
  ⟨rfl, userAuth_no_escape sampleEnv (reqWith "garbage" none)
    [("token", .str "garbage")] rfl⟩

/-- C9: two requests that carry the same token and are both admitted reach
the continuation with the same `userId` in their body, the id `jwt.verify`
decoded from the token, whatever their bodies held before (a `userId` the
client put there is overwritten). -/
theorem userAuth_userId_from_token (env : Env) (req1 req2 r1 r2 : Request)
    (c1 c2 : Obj)
    (hc1 : req1.cookies = some c1) (hc2 : req2.cookies = some c2)
    (hsame : getOwn c1 "token" = getOwn c2 "token")
    (h1 : r1 ∈ nextCalls (userAuth env req1).trace)
    (h2 : r2 ∈ nextCalls (userAuth env req2).trace) :
    ∃ tokenDecode id,
      env.jwtVerify (getOwn c1 "token") env.JWT_SECRET = .ok tokenDecode ∧
      getProp tokenDecode "id" = .ok id ∧
      (∃ b1, r1.body = some b1 ∧ getOwn b1 "userId" = id) ∧
      (∃ b2, r2.body = some b2 ∧ getOwn b2 "userId" = id) := by
  obtain ⟨c1', d1, id1, hc1', _, hv1, hid1, _, rfl⟩ :=
    mem_nextCalls_userAuth env req1 r1 h1
  obtain ⟨c2', d2, id2, hc2', _, hv2, hid2, _, rfl⟩ :=
    mem_nextCalls_userAuth env req2 r2 h2
  rw [hc1] at hc1'
  rw [hc2] at hc2'
  cases hc1'
  cases hc2'
  rw [← hsame, hv1] at hv2
  cases hv2
  rw [hid1] at hid2
  cases hid2
  exact ⟨d1, id1, hv1, hid1,
    ⟨_, attachUserId_body req1 id1, getOwn_setOwn_same _ _ _⟩,
    ⟨_, attachUserId_body req2 id1, getOwn_setOwn_same _ _ _⟩⟩

/-- Witness of C9: the same token `good`, once with a body that claims
`userId = "victim"` and once without a body. -/
theorem userAuth_userId_from_token_witness :
    (reqWith "good" (some [("userId", .str "victim")])).cookies
      = some [("token", .str "good")] ∧
    (reqWith "good" none).cookies = some [("token", .str "good")] ∧
    attachUserId (reqWith "good" (some [("userId", .str "victim")])) (.str "u1")
      ∈ nextCalls (userAuth sampleEnv
          (reqWith "good" (some [("userId", .str "victim")]))).trace ∧
    attachUserId (reqWith "good" none) (.str "u1")
      ∈ nextCalls (userAuth sampleEnv (reqWith "good" none)).trace ∧
    (∃ tokenDecode id,
      sampleEnv.jwtVerify (getOwn [("token", .str "good")] "token") sampleEnv.JWT_SECRET
        = .ok tokenDecode ∧
      getProp tokenDecode "id" = .ok id ∧
      (∃ b1, (attachUserId (reqWith "good" (some [("userId", .str "victim")]))
          (.str "u1")).body = some b1 ∧ getOwn b1 "userId" = id) ∧
      (∃ b2, (attachUserId (reqWith "good" none) (.str "u1")).body = some b2 ∧
        getOwn b2 "userId" = id)) :=
  ⟨rfl, rfl, List.mem_singleton.mpr rfl, List.mem_singleton.mpr rfl,
    userAuth_userId_from_token sampleEnv
      (reqWith "good" (some [("userId", .str "victim")])) (reqWith "good" none)
      _ _ [("token", .str "good")] [("token", .str "good")] rfl rfl rfl
      (List.mem_singleton.mpr rfl) (List.mem_singleton.mpr rfl)⟩

/-- C10: on a request that has a cookies object, with a continuation that
does not throw, `userAuth` either writes exactly one response, with
`success = false`, and does not call `next`, or calls `next` exactly once
and writes no response; and it calls `next` exactly when the token is
truthy, `jwt.verify` returns a payload, and the payload's `id` is truthy. -/
theorem userAuth_exactly_one (env : Env) (req : Request) (cookies : Obj)
    (hc : req.cookies = some cookies)
    (hnext : ∀ r, env.next r = none) :
    (((∃ m, responses (userAuth env req).trace = [mkResponse false m]) ∧
        nextCalls (userAuth env req).trace = []) ∨
      (responses (userAuth env req).trace = [] ∧
        ∃ r, nextCalls (userAuth env req).trace = [r])) ∧
    ((∃ r, nextCalls (userAuth env req).trace = [r]) ↔
      (truthy (getOwn cookies "token") = true ∧
        ∃ tokenDecode id,
          env.jwtVerify (getOwn cookies "token") env.JWT_SECRET = .ok tokenDecode ∧
          getProp tokenDecode "id" = .ok id ∧ truthy id = true)) := by
  cases htok : truthy (getOwn cookies "token") with
  | false =>
    simp [userAuth, hc, htok, responses, nextCalls, notAuthorized]
  | true =>
    cases hv : env.jwtVerify (getOwn cookies "token") env.JWT_SECRET with
    | error e =>
      simp [userAuth, tryBlock, hc, htok, hv, responses, nextCalls]
    | ok tokenDecode =>
      cases hid : getProp tokenDecode "id" with
      | error e =>
        simp [userAuth, tryBlock, hc, htok, hv, hid, responses, nextCalls]
      | ok id =>
        cases ht : truthy id with
        | false =>
          simp [userAuth, tryBlock, hc, htok, hv, hid, ht, responses, nextCalls,
            notAuthorized]
        | true =>
          simp [userAuth, tryBlock, hc, htok, hv, hid, ht, hnext, responses, nextCalls]

/-- Witness of C10: a token whose payload has no id, a continuation that
returns. -/
theorem userAuth_exactly_one_witness :
    (reqWith "noid" none).cookies = some [("token", .str "noid")] ∧
    (∀ r, sampleEnv.next r = none) ∧
    (((∃ m, responses (userAuth sampleEnv (reqWith "noid" none)).trace
          = [mkResponse false m]) ∧
        nextCalls (userAuth sampleEnv (reqWith "noid" none)).trace = []) ∨
      (responses (userAuth sampleEnv (reqWith "noid" none)).trace = [] ∧
        ∃ r, nextCalls (userAuth sampleEnv (reqWith "noid" none)).trace = [r])) :=
  ⟨rfl, fun _ => rfl,
    (userAuth_exactly_one sampleEnv (reqWith "noid" none) [("token", .str "noid")]
      rfl (fun _ => rfl)).1⟩

/-- C7: in the route table the chains of POST `/send-verify-otp`,
`/verify-account` and `/is-auth` are `userAuth` followed by the controller,
the chains of POST `/register`, `/login`, `/logout`, `/send-reset-otp` and
`/reset-password` are the controller alone, and no other path is guarded;
on a guarded path the controller is entered only with a request `userAuth`
admitted: the token verified, its decoded id was truthy, `userAuth` called
`next` with exactly that request, and its body carries that id as
`userId`. -/
theorem authRouter_guards :
    chainOf "POST" "/send-verify-otp"
      = some [.userAuth, .controller "sendVerifyOtp"] ∧
    chainOf "POST" "/verify-account" = some [.userAuth, .controller "verifyEmail"] ∧
    chainOf "POST" "/is-auth" = some [.userAuth, .controller "isAuthenticated"] ∧
    chainOf "POST" "/register" = some [.controller "register"] ∧
    chainOf "POST" "/login" = some [.controller "login"] ∧
    chainOf "POST" "/logout" = some [.controller "logout"] ∧
    chainOf "POST" "/send-reset-otp" = some [.controller "sendResestOtp"] ∧
    chainOf "POST" "/reset-password" = some [.controller "resetPassword"] ∧
    guardedPaths = ["/send-verify-otp", "/verify-account", "/is-auth"] ∧
    (∀ (env : Env) (req r : Request) (path name : String),
      path ∈ guardedPaths →
      Event.controller name r ∈ dispatch env "POST" path req →
      nextCalls (userAuth env req).trace = [r] ∧
      ∃ cookies tokenDecode id,
        req.cookies = some cookies ∧
        truthy (getOwn cookies "token") = true ∧
        env.jwtVerify (getOwn cookies "token") env.JWT_SECRET = .ok tokenDecode ∧
        getProp tokenDecode "id" = .ok id ∧
        truthy id = true ∧
        ∃ b, r.body = some b ∧ getOwn b "userId" = id) := by
  refine ⟨by decide, by decide, by decide, by decide, by decide, by decide, by decide,
    by decide, by decide, ?_⟩
  intro env req r path name hp hmem
  have hg : guardedPaths = ["/send-verify-otp", "/verify-account", "/is-auth"] := by
    decide
  rw [hg] at hp
  have hchain : ∃ c, dispatch env "POST" path req
      = runChain env [.userAuth, .controller c] req := by
    simp only [List.mem_cons, List.mem_singleton, List.not_mem_nil, or_false] at hp
    rcases hp with rfl | rfl | rfl
    · exact ⟨"sendVerifyOtp", by
        have h : chainOf "POST" "/send-verify-otp"
            = some [.userAuth, .controller "sendVerifyOtp"] := by decide
        simp only [dispatch, h]⟩
    · exact ⟨"verifyEmail", by
        have h : chainOf "POST" "/verify-account"
            = some [.userAuth, .controller "verifyEmail"] := by decide
        simp only [dispatch, h]⟩
    · exact ⟨"isAuthenticated", by
        have h : chainOf "POST" "/is-auth"
            = some [.userAuth, .controller "isAuthenticated"] := by decide
        simp only [dispatch, h]⟩
  obtain ⟨c, hd⟩ := hchain
  rw [hd] at hmem
  have hr := controller_mem_guarded_chain env req r name c hmem
  obtain ⟨cookies, tokenDecode, id, hc, htok, hv, hid, ht, rfl⟩ :=
    mem_nextCalls_userAuth _ req r hr
  have hv2 : env.jwtVerify (getOwn cookies "token") env.JWT_SECRET = .ok tokenDecode := hv
  refine ⟨?_, cookies, tokenDecode, id, hc, htok, hv2, hid, ht, _,
    attachUserId_body req id, getOwn_setOwn_same _ _ _⟩
  obtain ⟨_, htrace⟩ :=
    userAuth_trace_admit env req cookies tokenDecode id hc htok hv2 hid ht
  rw [htrace]
  cases env.next (attachUserId req id) <;> simp [nextCalls]

/-- Witness of C7: POST `/is-auth` with the token `good` enters
`isAuthenticated` with the request that carries `userId = "u1"`. -/
theorem authRouter_guards_witness :
    "/is-auth" ∈ guardedPaths ∧
    Event.controller "isAuthenticated" (attachUserId (reqWith "good" none) (.str "u1"))
      ∈ dispatch sampleEnv "POST" "/is-auth" (reqWith "good" none) ∧
    nextCalls (userAuth sampleEnv (reqWith "good" none)).trace
      = [attachUserId (reqWith "good" none) (.str "u1")] := by
  have hp : "/is-auth" ∈ guardedPaths := by decide
  have hd : dispatch sampleEnv "POST" "/is-auth" (reqWith "good" none)
      = [.verify (.str "good") (.str "secret"),
         .next (attachUserId (reqWith "good" none) (.str "u1")),
         .controller "isAuthenticated" (attachUserId (reqWith "good" none) (.str "u1"))] :=
    rfl
  have hm : Event.controller "isAuthenticated"
      (attachUserId (reqWith "good" none) (.str "u1"))
      ∈ dispatch sampleEnv "POST" "/is-auth" (reqWith "good" none) := by
    rw [hd]
    simp
  exact ⟨hp, hm,
    (authRouter_guards.2.2.2.2.2.2.2.2.2 sampleEnv (reqWith "good" none) _ "/is-auth"
      "isAuthenticated" hp hm).1⟩

end AuthUsingJS
